import Mathlib

/-!
Verification of the petroleum-economics formula library
(`src/financial_indicators/core/petroleum.py`).

The source operates on Python `decimal.Decimal` values under the default
context: results of `+`, `-`, `*`, `/` are rounded to 28 significant digits
with round-half-even.  We embed a finite `Decimal` by its exact rational
value and embed each arithmetic operation as the exact rational operation
followed by `decFix`, the rounding of a rational to 28 significant digits
with ties to even — exactly the value Python's `_fix` produces on the exact
intermediate result.  Validation failures (`InvalidInputError`) are embedded
with `Except`.
-/

/-- Round a rational to the nearest integer, ties to even
(the coefficient rounding of `decimal.ROUND_HALF_EVEN`). -/
def rndHalfEven (x : ℚ) : ℤ :=
  if x - ⌊x⌋ < 1 / 2 then ⌊x⌋
  else if 1 / 2 < x - ⌊x⌋ then ⌊x⌋ + 1
  else if 2 ∣ ⌊x⌋ then ⌊x⌋ else ⌊x⌋ + 1

/-- The adjusted exponent of a decimal value: the integer `e` with
`10 ^ e ≤ |q| < 10 ^ (e + 1)` for `q ≠ 0`. -/
def adjExp (q : ℚ) : ℤ := Int.log 10 |q|

/-- Round a rational to 28 significant decimal digits, half to even: the
value `decimal` context `prec = 28, rounding = ROUND_HALF_EVEN` (Python's
default context) gives for an exact operation result `q`. -/
def decFix (q : ℚ) : ℚ :=
  if q = 0 then 0
  else (rndHalfEven (q * (10 : ℚ) ^ (27 - adjExp q)) : ℚ) * (10 : ℚ) ^ (adjExp q - 27)

/-- `Decimal.__add__` under the default context, on values. -/
def decAdd (a b : ℚ) : ℚ := decFix (a + b)

/-- `Decimal.__sub__` under the default context, on values. -/
def decSub (a b : ℚ) : ℚ := decFix (a - b)

/-- `Decimal.__mul__` under the default context, on values. -/
def decMul (a b : ℚ) : ℚ := decFix (a * b)

/-- `Decimal.__truediv__` under the default context, on values: the exact
quotient correctly rounded to 28 significant digits. -/
def decDiv (a b : ℚ) : ℚ := decFix (a / b)

/-- A value is representable in at most 28 significant decimal digits. -/
def repr28 (q : ℚ) : Prop :=
  ∃ m k : ℤ, |m| < 10 ^ 28 ∧ q = (m : ℚ) * (10 : ℚ) ^ k

lemma rndHalfEven_intCast (n : ℤ) : rndHalfEven (n : ℚ) = n := by
  simp [rndHalfEven]

lemma rndHalfEven_of_lt (x : ℚ) (f : ℤ) (h1 : (f : ℚ) ≤ x) (h2 : x < f + 1 / 2) :
    rndHalfEven x = f := by
  have hf : ⌊x⌋ = f := Int.floor_eq_iff.mpr ⟨h1, by linarith⟩
  rw [rndHalfEven, hf, if_pos (by linarith)]

lemma rndHalfEven_of_gt (x : ℚ) (f : ℤ) (h1 : (f : ℚ) + 1 / 2 < x) (h2 : x < f + 1) :
    rndHalfEven x = f + 1 := by
  have hf : ⌊x⌋ = f := Int.floor_eq_iff.mpr ⟨by linarith, by linarith⟩
  rw [rndHalfEven, hf, if_neg (by linarith), if_pos (by linarith)]

lemma ten_cast_q : ((10 : ℕ) : ℚ) = (10 : ℚ) := by norm_num

lemma adjExp_eq (q : ℚ) (e : ℤ) (h1 : (10 : ℚ) ^ e ≤ |q|) (h2 : |q| < (10 : ℚ) ^ (e + 1)) :
    adjExp q = e := by
  have hq : 0 < |q| := lt_of_lt_of_le (zpow_pos (by norm_num) e) h1
  have hten : (1 : ℕ) < 10 := by norm_num
  refine le_antisymm ?_ ?_
  · by_contra h
    push_neg at h
    have he : e + 1 ≤ adjExp q := h
    have h3 : (10 : ℚ) ^ (e + 1) ≤ (10 : ℚ) ^ adjExp q :=
      zpow_le_zpow_right₀ (by norm_num) he
    have h4 : ((10 : ℕ) : ℚ) ^ adjExp q ≤ |q| := Int.zpow_log_le_self hten hq
    rw [ten_cast_q] at h4
    exact absurd (lt_of_lt_of_le h2 (le_trans h3 h4)) (lt_irrefl _)
  · have := (Int.zpow_le_iff_le_log hten hq).mp (by rw [ten_cast_q]; exact h1)
    exact this

lemma decFix_eval (q : ℚ) (e : ℤ) (h1 : (10 : ℚ) ^ e ≤ |q|) (h2 : |q| < (10 : ℚ) ^ (e + 1)) :
    decFix q = (rndHalfEven (q * (10 : ℚ) ^ (27 - e)) : ℚ) * (10 : ℚ) ^ (e - 27) := by
  have hq : q ≠ 0 := by
    intro h
    rw [h] at h1
    simp only [abs_zero] at h1
    exact absurd (lt_of_lt_of_le (zpow_pos (by norm_num) e) h1) (lt_irrefl _)
  rw [decFix, if_neg hq, adjExp_eq q e h1 h2]

lemma decFix_eq_self {q : ℚ} (h : repr28 q) : decFix q = q := by
  obtain ⟨m, k, hm, rfl⟩ := h
  by_cases hm0 : m = 0
  · subst hm0
    simp [decFix]
  · have hq : (m : ℚ) * (10 : ℚ) ^ k ≠ 0 := by
      refine mul_ne_zero ?_ (zpow_ne_zero _ (by norm_num))
      exact_mod_cast hm0
    have habs : |(m : ℚ) * (10 : ℚ) ^ k| = |(m : ℚ)| * (10 : ℚ) ^ k := by
      rw [abs_mul, abs_of_pos (zpow_pos (by norm_num : (0:ℚ) < 10) k)]
    have hup : |(m : ℚ) * (10 : ℚ) ^ k| < (10 : ℚ) ^ (k + 28) := by
      rw [habs]
      have hmq : |(m : ℚ)| < (10 : ℚ) ^ (28 : ℕ) := by
        exact_mod_cast hm
      calc |(m : ℚ)| * (10 : ℚ) ^ k < (10 : ℚ) ^ (28 : ℕ) * (10 : ℚ) ^ k := by
            exact mul_lt_mul_of_pos_right hmq (zpow_pos (by norm_num) k)
        _ = (10 : ℚ) ^ (k + 28) := by
            rw [← zpow_natCast (10 : ℚ) 28, ← zpow_add₀ (by norm_num : (10:ℚ) ≠ 0)]
            ring_nf
    have hlow : (10 : ℚ) ^ adjExp ((m : ℚ) * (10 : ℚ) ^ k) ≤ |(m : ℚ) * (10 : ℚ) ^ k| := by
      have := Int.zpow_log_le_self (b := 10) (by norm_num) (abs_pos.mpr hq)
      rw [ten_cast_q] at this
      exact this
    have hE : adjExp ((m : ℚ) * (10 : ℚ) ^ k) < k + 28 := by
      by_contra hc
      push_neg at hc
      have : (10 : ℚ) ^ (k + 28) ≤ (10 : ℚ) ^ adjExp ((m : ℚ) * (10 : ℚ) ^ k) :=
        zpow_le_zpow_right₀ (by norm_num) hc
      exact absurd (lt_of_lt_of_le hup (le_trans this hlow)) (lt_irrefl _)
    set E := adjExp ((m : ℚ) * (10 : ℚ) ^ k) with hEdef
    have hnn : 0 ≤ k + 27 - E := by omega
    set n : ℕ := (k + 27 - E).toNat with hndef
    have hn : (n : ℤ) = k + 27 - E := Int.toNat_of_nonneg hnn
    have hx : (m : ℚ) * (10 : ℚ) ^ k * (10 : ℚ) ^ (27 - E) = ((m * 10 ^ n : ℤ) : ℚ) := by
      push_cast
      rw [mul_assoc, ← zpow_add₀ (by norm_num : (10:ℚ) ≠ 0), ← zpow_natCast (10 : ℚ) n]
      congr 2
      omega
    rw [decFix, if_neg hq, ← hEdef, hx, rndHalfEven_intCast]
    push_cast
    rw [mul_assoc, ← zpow_natCast (10 : ℚ) n, ← zpow_add₀ (by norm_num : (10:ℚ) ≠ 0)]
    congr 2
    omega

lemma repr28_of_int (q : ℚ) (m : ℤ) (hq : q = (m : ℚ)) (hm : |m| < 10 ^ 28) : repr28 q :=
  ⟨m, 0, hm, by rw [hq, zpow_zero, mul_one]⟩

lemma decFix_int (q : ℚ) (m : ℤ) (hq : q = (m : ℚ)) (hm : |m| < 10 ^ 28) : decFix q = q :=
  decFix_eq_self (repr28_of_int q m hq hm)

/-- Modelled from the spec: the single "invalid input" error kind raised by the
validation helper (`financial_indicators.exceptions.InvalidInputError`, whose
module is not part of the sources at hand).  Per spec section 7 it "carries the
parameter name and the offending value for diagnostics". -/
structure InvalidInputError where
  param : String
  value : ℚ
deriving Repr, DecidableEq

/-- Modelled from the spec: the positivity validator
(`financial_indicators.validation.validate_positive`, whose module is not part
of the sources at hand).  Per spec section 4.1: "given a decimal value and a
name label, succeeds silently if the value is strictly greater than zero;
otherwise fails with an invalid input error identifying the offending
parameter name and the bad value". -/
def validate_positive (value : ℚ) (name : String) : Except InvalidInputError Unit :=
  if 0 < value then Except.ok () else Except.error ⟨name, value⟩

/-- `petroleum.finding_development_cost`. -/
def finding_development_cost (exploration_costs development_costs reserves_added : ℚ) :
    Except InvalidInputError ℚ :=
  match validate_positive reserves_added ("reserves_added") with
  | Except.error e => Except.error e
  | Except.ok _ =>
      Except.ok (decDiv (decAdd exploration_costs development_costs) reserves_added)

/-- `petroleum.reserve_replacement_ratio`. -/
def reserve_replacement_ratio (reserves_added production : ℚ) :
    Except InvalidInputError ℚ :=
  match validate_positive production ("production") with
  | Except.error e => Except.error e
  | Except.ok _ => Except.ok (decDiv reserves_added production)

/-- `petroleum.reserve_life_index`. -/
def reserve_life_index (proved_reserves annual_production : ℚ) :
    Except InvalidInputError ℚ :=
  match validate_positive proved_reserves ("proved_reserves") with
  | Except.error e => Except.error e
  | Except.ok _ =>
      match validate_positive annual_production ("annual_production") with
      | Except.error e => Except.error e
      | Except.ok _ => Except.ok (decDiv proved_reserves annual_production)

/-- `petroleum.reserves_per_share`. -/
def reserves_per_share (total_proved_reserves shares_outstanding : ℚ) :
    Except InvalidInputError ℚ :=
  match validate_positive total_proved_reserves ("total_proved_reserves") with
  | Except.error e => Except.error e
  | Except.ok _ =>
      match validate_positive shares_outstanding ("shares_outstanding") with
      | Except.error e => Except.error e
      | Except.ok _ => Except.ok (decDiv total_proved_reserves shares_outstanding)

/-- `petroleum.lifting_cost`. -/
def lifting_cost (total_operating_costs total_production : ℚ) :
    Except InvalidInputError ℚ :=
  match validate_positive total_production ("total_production") with
  | Except.error e => Except.error e
  | Except.ok _ => Except.ok (decDiv total_operating_costs total_production)

/-- `petroleum.netback`.  The source performs no validation and cannot raise:
it is embedded as a total function. -/
def netback (oil_price royalties transportation operating_costs : ℚ) : ℚ :=
  decSub (decSub (decSub oil_price royalties) transportation) operating_costs

/-- `petroleum.breakeven_price`. -/
def breakeven_price (total_costs total_production : ℚ) :
    Except InvalidInputError ℚ :=
  match validate_positive total_production ("total_production") with
  | Except.error e => Except.error e
  | Except.ok _ => Except.ok (decDiv total_costs total_production)

/-- `petroleum.operating_netback_margin`.  The first parameter of the source is
itself called `netback`; it is kept here, shadowing the function above. -/
def operating_netback_margin (netback oil_price : ℚ) :
    Except InvalidInputError ℚ :=
  match validate_positive oil_price ("oil_price") with
  | Except.error e => Except.error e
  | Except.ok _ => Except.ok (decMul (decDiv netback oil_price) 100)

/-- `petroleum.capital_efficiency`. -/
def capital_efficiency (production_added capital_expenditure : ℚ) :
    Except InvalidInputError ℚ :=
  match validate_positive production_added ("production_added") with
  | Except.error e => Except.error e
  | Except.ok _ =>
      match validate_positive capital_expenditure ("capital_expenditure") with
      | Except.error e => Except.error e
      | Except.ok _ => Except.ok (decDiv production_added capital_expenditure)

/-- `petroleum.recycle_ratio`.  The second parameter of the source is itself
called `finding_development_cost`; it is kept here, shadowing the function
above. -/
def recycle_ratio (operating_netback finding_development_cost : ℚ) :
    Except InvalidInputError ℚ :=
  match validate_positive finding_development_cost ("finding_development_cost") with
  | Except.error e => Except.error e
  | Except.ok _ => Except.ok (decDiv operating_netback finding_development_cost)

lemma validate_positive_ok {v : ℚ} (n : String) (h : 0 < v) :
    validate_positive v n = Except.ok () := by
  rw [validate_positive, if_pos h]

lemma validate_positive_err {v : ℚ} (n : String) (h : v ≤ 0) :
    validate_positive v n = Except.error ⟨n, v⟩ := by
  rw [validate_positive, if_neg (not_lt.mpr h)]

lemma fdc_ok (a b c : ℚ) (h : 0 < c) :
    finding_development_cost a b c = Except.ok (decDiv (decAdd a b) c) := by
  rw [finding_development_cost, validate_positive_ok _ h]

lemma fdc_err (a b c : ℚ) (h : c ≤ 0) :
    finding_development_cost a b c = Except.error ⟨("reserves_added"), c⟩ := by
  rw [finding_development_cost, validate_positive_err _ h]

lemma rrr_ok (a b : ℚ) (h : 0 < b) :
    reserve_replacement_ratio a b = Except.ok (decDiv a b) := by
  rw [reserve_replacement_ratio, validate_positive_ok _ h]

lemma rrr_err (a b : ℚ) (h : b ≤ 0) :
    reserve_replacement_ratio a b = Except.error ⟨("production"), b⟩ := by
  rw [reserve_replacement_ratio, validate_positive_err _ h]

lemma rli_ok (a b : ℚ) (ha : 0 < a) (hb : 0 < b) :
    reserve_life_index a b = Except.ok (decDiv a b) := by
  rw [reserve_life_index, validate_positive_ok _ ha, validate_positive_ok _ hb]

lemma rli_err1 (a b : ℚ) (ha : a ≤ 0) :
    reserve_life_index a b = Except.error ⟨("proved_reserves"), a⟩ := by
  rw [reserve_life_index, validate_positive_err _ ha]

lemma rli_err2 (a b : ℚ) (ha : 0 < a) (hb : b ≤ 0) :
    reserve_life_index a b = Except.error ⟨("annual_production"), b⟩ := by
  rw [reserve_life_index, validate_positive_ok _ ha, validate_positive_err _ hb]

lemma rps_ok (a b : ℚ) (ha : 0 < a) (hb : 0 < b) :
    reserves_per_share a b = Except.ok (decDiv a b) := by
  rw [reserves_per_share, validate_positive_ok _ ha, validate_positive_ok _ hb]

lemma rps_err1 (a b : ℚ) (ha : a ≤ 0) :
    reserves_per_share a b = Except.error ⟨("total_proved_reserves"), a⟩ := by
  rw [reserves_per_share, validate_positive_err _ ha]

lemma rps_err2 (a b : ℚ) (ha : 0 < a) (hb : b ≤ 0) :
    reserves_per_share a b = Except.error ⟨("shares_outstanding"), b⟩ := by
  rw [reserves_per_share, validate_positive_ok _ ha, validate_positive_err _ hb]

lemma lc_ok (a b : ℚ) (h : 0 < b) :
    lifting_cost a b = Except.ok (decDiv a b) := by
  rw [lifting_cost, validate_positive_ok _ h]

lemma lc_err (a b : ℚ) (h : b ≤ 0) :
    lifting_cost a b = Except.error ⟨("total_production"), b⟩ := by
  rw [lifting_cost, validate_positive_err _ h]

lemma bp_ok (a b : ℚ) (h : 0 < b) :
    breakeven_price a b = Except.ok (decDiv a b) := by
  rw [breakeven_price, validate_positive_ok _ h]

lemma bp_err (a b : ℚ) (h : b ≤ 0) :
    breakeven_price a b = Except.error ⟨("total_production"), b⟩ := by
  rw [breakeven_price, validate_positive_err _ h]

lemma onm_ok (a b : ℚ) (h : 0 < b) :
    operating_netback_margin a b = Except.ok (decMul (decDiv a b) 100) := by
  rw [operating_netback_margin, validate_positive_ok _ h]

lemma onm_err (a b : ℚ) (h : b ≤ 0) :
    operating_netback_margin a b = Except.error ⟨("oil_price"), b⟩ := by
  rw [operating_netback_margin, validate_positive_err _ h]

lemma ce_ok (a b : ℚ) (ha : 0 < a) (hb : 0 < b) :
    capital_efficiency a b = Except.ok (decDiv a b) := by
  rw [capital_efficiency, validate_positive_ok _ ha, validate_positive_ok _ hb]

lemma ce_err1 (a b : ℚ) (ha : a ≤ 0) :
    capital_efficiency a b = Except.error ⟨("production_added"), a⟩ := by
  rw [capital_efficiency, validate_positive_err _ ha]

lemma ce_err2 (a b : ℚ) (ha : 0 < a) (hb : b ≤ 0) :
    capital_efficiency a b = Except.error ⟨("capital_expenditure"), b⟩ := by
  rw [capital_efficiency, validate_positive_ok _ ha, validate_positive_err _ hb]

lemma rcr_ok (a b : ℚ) (h : 0 < b) :
    recycle_ratio a b = Except.ok (decDiv a b) := by
  rw [recycle_ratio, validate_positive_ok _ h]

lemma rcr_err (a b : ℚ) (h : b ≤ 0) :
    recycle_ratio a b = Except.error ⟨("finding_development_cost"), b⟩ := by
  rw [recycle_ratio, validate_positive_err _ h]

/-- C1: each formula function with a "must be positive" precondition fails with
the single invalid-input error kind exactly when such a parameter is zero or
negative, and the error carries the offending parameter's name and value
(for the two-precondition functions, those of the first violated parameter). -/
theorem invalid_input_iff_nonpositive (a b c : ℚ) :
    (∀ e, finding_development_cost a b c = Except.error e ↔
      (c ≤ 0 ∧ e = ⟨("reserves_added"), c⟩)) ∧
    (∀ e, reserve_replacement_ratio a c = Except.error e ↔
      (c ≤ 0 ∧ e = ⟨("production"), c⟩)) ∧
    (∀ e, reserve_life_index a b = Except.error e ↔
      ((a ≤ 0 ∧ e = ⟨("proved_reserves"), a⟩) ∨
        (0 < a ∧ b ≤ 0 ∧ e = ⟨("annual_production"), b⟩))) ∧
    (∀ e, reserves_per_share a b = Except.error e ↔
      ((a ≤ 0 ∧ e = ⟨("total_proved_reserves"), a⟩) ∨
        (0 < a ∧ b ≤ 0 ∧ e = ⟨("shares_outstanding"), b⟩))) ∧
    (∀ e, lifting_cost a c = Except.error e ↔
      (c ≤ 0 ∧ e = ⟨("total_production"), c⟩)) ∧
    (∀ e, breakeven_price a c = Except.error e ↔
      (c ≤ 0 ∧ e = ⟨("total_production"), c⟩)) ∧
    (∀ e, operating_netback_margin a c = Except.error e ↔
      (c ≤ 0 ∧ e = ⟨("oil_price"), c⟩)) ∧
    (∀ e, capital_efficiency a b = Except.error e ↔
      ((a ≤ 0 ∧ e = ⟨("production_added"), a⟩) ∨
        (0 < a ∧ b ≤ 0 ∧ e = ⟨("capital_expenditure"), b⟩))) ∧
    (∀ e, recycle_ratio a c = Except.error e ↔
      (c ≤ 0 ∧ e = ⟨("finding_development_cost"), c⟩)) := by
  refine ⟨?_, ?_, ?_, ?_, ?_, ?_, ?_, ?_, ?_⟩
  · intro e
    rcases le_or_lt c 0 with h | h
    · simp [fdc_err a b c h, h, eq_comm]
    · simp [fdc_ok a b c h, not_le.mpr h]
  · intro e
    rcases le_or_lt c 0 with h | h
    · simp [rrr_err a c h, h, eq_comm]
    · simp [rrr_ok a c h, not_le.mpr h]
  · intro e
    rcases le_or_lt a 0 with ha | ha
    · simp [rli_err1 a b ha, ha, not_lt.mpr ha, eq_comm]
    · rcases le_or_lt b 0 with hb | hb
      · simp [rli_err2 a b ha hb, ha, hb, not_le.mpr ha, eq_comm]
      · simp [rli_ok a b ha hb, not_le.mpr ha, not_le.mpr hb]
  · intro e
    rcases le_or_lt a 0 with ha | ha
    · simp [rps_err1 a b ha, ha, not_lt.mpr ha, eq_comm]
    · rcases le_or_lt b 0 with hb | hb
      · simp [rps_err2 a b ha hb, ha, hb, not_le.mpr ha, eq_comm]
      · simp [rps_ok a b ha hb, not_le.mpr ha, not_le.mpr hb]
  · intro e
    rcases le_or_lt c 0 with h | h
    · simp [lc_err a c h, h, eq_comm]
    · simp [lc_ok a c h, not_le.mpr h]
  · intro e
    rcases le_or_lt c 0 with h | h
    · simp [bp_err a c h, h, eq_comm]
    · simp [bp_ok a c h, not_le.mpr h]
  · intro e
    rcases le_or_lt c 0 with h | h
    · simp [onm_err a c h, h, eq_comm]
    · simp [onm_ok a c h, not_le.mpr h]
  · intro e
    rcases le_or_lt a 0 with ha | ha
    · simp [ce_err1 a b ha, ha, not_lt.mpr ha, eq_comm]
    · rcases le_or_lt b 0 with hb | hb
      · simp [ce_err2 a b ha hb, ha, hb, not_le.mpr ha, eq_comm]
      · simp [ce_ok a b ha hb, not_le.mpr ha, not_le.mpr hb]
  · intro e
    rcases le_or_lt c 0 with h | h
    · simp [rcr_err a c h, h, eq_comm]
    · simp [rcr_ok a c h, not_le.mpr h]

lemma scale_cancel (k a b : ℚ) (hk : k ≠ 0) : k * a / (k * b) = a / b := by
  rw [mul_comm k a, mul_comm k b, mul_div_mul_right a b hk]

lemma decSub_int (a b : ℚ) (m : ℤ) (h : a - b = (m : ℚ)) (hm : |m| < 10 ^ 28) :
    decSub a b = (m : ℚ) := by
  rw [decSub, h, decFix_int _ m rfl hm]

/-- C2 amended: for any exploration and development costs (unconstrained in
sign) and any strictly positive reserves added, `finding_development_cost`
never errors; it returns `(exploration_costs + development_costs) /
reserves_added` computed in the source's decimal arithmetic (exact sum and
exact quotient each correctly rounded to 28 significant digits, half to even),
which is the exact quotient itself whenever the exact sum and the exact
quotient are representable in 28 significant digits — but not in general (see
the counterexample at (1, 0, 3)). -/
theorem finding_development_cost_formula
    (exploration_costs development_costs reserves_added : ℚ) (h : 0 < reserves_added) :
    finding_development_cost exploration_costs development_costs reserves_added =
      Except.ok (decDiv (decAdd exploration_costs development_costs) reserves_added) ∧
    (repr28 (exploration_costs + development_costs) →
      repr28 ((exploration_costs + development_costs) / reserves_added) →
      finding_development_cost exploration_costs development_costs reserves_added =
        Except.ok ((exploration_costs + development_costs) / reserves_added)) := by
  refine ⟨fdc_ok _ _ _ h, fun h1 h2 => ?_⟩
  rw [fdc_ok _ _ _ h, decAdd, decFix_eq_self h1, decDiv, decFix_eq_self h2]

/-- Witness for the amended C2 at the spec's own example inputs, whose sum
50000000 and quotient 10 are both representable. -/
theorem finding_development_cost_formula_witness :
    finding_development_cost 20000000 30000000 5000000 =
      Except.ok (decDiv (decAdd 20000000 30000000) 5000000) ∧
    (repr28 ((20000000 : ℚ) + 30000000) →
      repr28 (((20000000 : ℚ) + 30000000) / 5000000) →
      finding_development_cost 20000000 30000000 5000000 =
        Except.ok (((20000000 : ℚ) + 30000000) / 5000000)) :=
  finding_development_cost_formula 20000000 30000000 5000000 (by norm_num)

/-- C4: `netback` is a total function (the source has no validation call, so no
error can be raised); it returns the decimal-arithmetic value of
`oil_price - royalties - transportation - operating_costs`, and on the spec's
examples: `netback 70 10 5 15 = 40` and `netback 30 5 10 25 = -10`. -/
theorem netback_total_and_values (oil_price royalties transportation operating_costs : ℚ) :
    netback oil_price royalties transportation operating_costs =
      decSub (decSub (decSub oil_price royalties) transportation) operating_costs ∧
    netback 70 10 5 15 = 40 ∧
    netback 30 5 10 25 = -10 := by
  refine ⟨rfl, ?_, ?_⟩
  · have e1 : decSub (70 : ℚ) 10 = ((60 : ℤ) : ℚ) :=
      decSub_int 70 10 60 (by norm_num) (by norm_num)
    have e2 : decSub ((60 : ℤ) : ℚ) 5 = ((55 : ℤ) : ℚ) :=
      decSub_int _ 5 55 (by norm_num) (by norm_num)
    have e3 : decSub ((55 : ℤ) : ℚ) 15 = ((40 : ℤ) : ℚ) :=
      decSub_int _ 15 40 (by norm_num) (by norm_num)
    simp only [netback]
    rw [e1, e2, e3]
    norm_num
  · have e1 : decSub (30 : ℚ) 5 = ((25 : ℤ) : ℚ) :=
      decSub_int 30 5 25 (by norm_num) (by norm_num)
    have e2 : decSub ((25 : ℤ) : ℚ) 10 = ((15 : ℤ) : ℚ) :=
      decSub_int _ 10 15 (by norm_num) (by norm_num)
    have e3 : decSub ((15 : ℤ) : ℚ) 25 = ((-10 : ℤ) : ℚ) :=
      decSub_int _ 25 (-10) (by norm_num) (by norm_num)
    simp only [netback]
    rw [e1, e2, e3]
    norm_num

/-- C6: every formula function is a deterministic, side-effect-free mapping of
its inputs: equal inputs give equal results (equal values on success, the same
error on failure). -/
theorem functions_deterministic (x1 x2 x3 x4 y1 y2 y3 y4 : ℚ)
    (h1 : x1 = y1) (h2 : x2 = y2) (h3 : x3 = y3) (h4 : x4 = y4) :
    finding_development_cost x1 x2 x3 = finding_development_cost y1 y2 y3 ∧
    reserve_replacement_ratio x1 x2 = reserve_replacement_ratio y1 y2 ∧
    reserve_life_index x1 x2 = reserve_life_index y1 y2 ∧
    reserves_per_share x1 x2 = reserves_per_share y1 y2 ∧
    lifting_cost x1 x2 = lifting_cost y1 y2 ∧
    netback x1 x2 x3 x4 = netback y1 y2 y3 y4 ∧
    breakeven_price x1 x2 = breakeven_price y1 y2 ∧
    operating_netback_margin x1 x2 = operating_netback_margin y1 y2 ∧
    capital_efficiency x1 x2 = capital_efficiency y1 y2 ∧
    recycle_ratio x1 x2 = recycle_ratio y1 y2 := by
  subst h1
  subst h2
  subst h3
  subst h4
  exact ⟨rfl, rfl, rfl, rfl, rfl, rfl, rfl, rfl, rfl, rfl⟩

/-- Witness for C6 at concrete inputs. -/
theorem functions_deterministic_witness :
    finding_development_cost 1 2 3 = finding_development_cost 1 2 3 ∧
    reserve_replacement_ratio 1 2 = reserve_replacement_ratio 1 2 ∧
    reserve_life_index 1 2 = reserve_life_index 1 2 ∧
    reserves_per_share 1 2 = reserves_per_share 1 2 ∧
    lifting_cost 1 2 = lifting_cost 1 2 ∧
    netback 1 2 3 4 = netback 1 2 3 4 ∧
    breakeven_price 1 2 = breakeven_price 1 2 ∧
    operating_netback_margin 1 2 = operating_netback_margin 1 2 ∧
    capital_efficiency 1 2 = capital_efficiency 1 2 ∧
    recycle_ratio 1 2 = recycle_ratio 1 2 :=
  functions_deterministic 1 2 3 4 1 2 3 4 rfl rfl rfl rfl

/-- C7: a violated precondition decides the call by itself, before any
arithmetic on the inputs: the failing result is the validator's error and is
the same for every value of the remaining arguments, so no arithmetic on the
inputs (in particular no division by the non-positive denominator) influences
the outcome and no partial result is produced.  For the two-precondition
functions the clause for the second parameter requires the first to have
passed. -/
theorem validation_precedes_arithmetic (y : ℚ) (hy : y ≤ 0) :
    (∀ a b, finding_development_cost a b y = Except.error ⟨("reserves_added"), y⟩) ∧
    (∀ a, reserve_replacement_ratio a y = Except.error ⟨("production"), y⟩) ∧
    (∀ b, reserve_life_index y b = Except.error ⟨("proved_reserves"), y⟩) ∧
    (∀ a, 0 < a → reserve_life_index a y = Except.error ⟨("annual_production"), y⟩) ∧
    (∀ b, reserves_per_share y b = Except.error ⟨("total_proved_reserves"), y⟩) ∧
    (∀ a, 0 < a → reserves_per_share a y = Except.error ⟨("shares_outstanding"), y⟩) ∧
    (∀ a, lifting_cost a y = Except.error ⟨("total_production"), y⟩) ∧
    (∀ a, breakeven_price a y = Except.error ⟨("total_production"), y⟩) ∧
    (∀ a, operating_netback_margin a y = Except.error ⟨("oil_price"), y⟩) ∧
    (∀ b, capital_efficiency y b = Except.error ⟨("production_added"), y⟩) ∧
    (∀ a, 0 < a → capital_efficiency a y = Except.error ⟨("capital_expenditure"), y⟩) ∧
    (∀ a, recycle_ratio a y = Except.error ⟨("finding_development_cost"), y⟩) := by
  refine ⟨fun a b => fdc_err a b y hy, fun a => rrr_err a y hy,
    fun b => rli_err1 y b hy, fun a ha => rli_err2 a y ha hy,
    fun b => rps_err1 y b hy, fun a ha => rps_err2 a y ha hy,
    fun a => lc_err a y hy, fun a => bp_err a y hy, fun a => onm_err a y hy,
    fun b => ce_err1 y b hy, fun a ha => ce_err2 a y ha hy,
    fun a => rcr_err a y hy⟩

/-- Witness for C7 at a zero denominator and concrete remaining arguments. -/
theorem validation_precedes_arithmetic_witness :
    finding_development_cost 5 7 0 = Except.error ⟨("reserves_added"), 0⟩ ∧
    reserve_replacement_ratio 5 0 = Except.error ⟨("production"), 0⟩ ∧
    reserve_life_index 0 5 = Except.error ⟨("proved_reserves"), 0⟩ ∧
    reserve_life_index 5 0 = Except.error ⟨("annual_production"), 0⟩ ∧
    reserves_per_share 0 5 = Except.error ⟨("total_proved_reserves"), 0⟩ ∧
    reserves_per_share 5 0 = Except.error ⟨("shares_outstanding"), 0⟩ ∧
    lifting_cost 5 0 = Except.error ⟨("total_production"), 0⟩ ∧
    breakeven_price 5 0 = Except.error ⟨("total_production"), 0⟩ ∧
    operating_netback_margin 5 0 = Except.error ⟨("oil_price"), 0⟩ ∧
    capital_efficiency 0 5 = Except.error ⟨("production_added"), 0⟩ ∧
    capital_efficiency 5 0 = Except.error ⟨("capital_expenditure"), 0⟩ ∧
    recycle_ratio 5 0 = Except.error ⟨("finding_development_cost"), 0⟩ := by
  have h := validation_precedes_arithmetic 0 le_rfl
  exact ⟨h.1 5 7, h.2.1 5, h.2.2.1 5, h.2.2.2.1 5 (by norm_num), h.2.2.2.2.1 5,
    h.2.2.2.2.2.1 5 (by norm_num), h.2.2.2.2.2.2.1 5, h.2.2.2.2.2.2.2.1 5,
    h.2.2.2.2.2.2.2.2.1 5, h.2.2.2.2.2.2.2.2.2.1 5,
    h.2.2.2.2.2.2.2.2.2.2.1 5 (by norm_num), h.2.2.2.2.2.2.2.2.2.2.2 5⟩

/-- C9: in the three functions with two positivity preconditions the first
parameter is validated first: when both arguments are non-positive the raised
error names the first parameter and carries its value. -/
theorem first_parameter_validated_first (a b : ℚ) (ha : a ≤ 0) (hb : b ≤ 0) :
    reserve_life_index a b = Except.error ⟨("proved_reserves"), a⟩ ∧
    reserves_per_share a b = Except.error ⟨("total_proved_reserves"), a⟩ ∧
    capital_efficiency a b = Except.error ⟨("production_added"), a⟩ :=
  ⟨rli_err1 a b ha, rps_err1 a b ha, ce_err1 a b ha⟩

/-- Witness for C9: both arguments non-positive. -/
theorem first_parameter_validated_first_witness :
    reserve_life_index (-3) (-4) = Except.error ⟨("proved_reserves"), -3⟩ ∧
    reserves_per_share (-3) (-4) = Except.error ⟨("total_proved_reserves"), -3⟩ ∧
    capital_efficiency (-3) (-4) = Except.error ⟨("production_added"), -3⟩ :=
  first_parameter_validated_first (-3) (-4) (by norm_num) (by norm_num)

/-- C10: each pure-ratio function is invariant under exact common rescaling of
its two arguments by a positive factor: scaling both inputs by `k > 0` leaves
the exact quotient unchanged, hence also its correctly rounded 28-digit
decimal value. -/
theorem ratio_scale_invariance (k a b : ℚ) (hk : 0 < k) :
    (0 < b → reserve_replacement_ratio (k * a) (k * b) = reserve_replacement_ratio a b) ∧
    (0 < a → 0 < b → reserve_life_index (k * a) (k * b) = reserve_life_index a b) ∧
    (0 < a → 0 < b → reserves_per_share (k * a) (k * b) = reserves_per_share a b) ∧
    (0 < b → lifting_cost (k * a) (k * b) = lifting_cost a b) ∧
    (0 < b → breakeven_price (k * a) (k * b) = breakeven_price a b) ∧
    (0 < a → 0 < b → capital_efficiency (k * a) (k * b) = capital_efficiency a b) ∧
    (0 < b → recycle_ratio (k * a) (k * b) = recycle_ratio a b) := by
  have hq : k * a / (k * b) = a / b := scale_cancel k a b (ne_of_gt hk)
  refine ⟨fun hb => ?_, fun ha hb => ?_, fun ha hb => ?_, fun hb => ?_, fun hb => ?_,
    fun ha hb => ?_, fun hb => ?_⟩
  · rw [rrr_ok _ _ (mul_pos hk hb), rrr_ok _ _ hb, decDiv, decDiv, hq]
  · rw [rli_ok _ _ (mul_pos hk ha) (mul_pos hk hb), rli_ok _ _ ha hb, decDiv, decDiv, hq]
  · rw [rps_ok _ _ (mul_pos hk ha) (mul_pos hk hb), rps_ok _ _ ha hb, decDiv, decDiv, hq]
  · rw [lc_ok _ _ (mul_pos hk hb), lc_ok _ _ hb, decDiv, decDiv, hq]
  · rw [bp_ok _ _ (mul_pos hk hb), bp_ok _ _ hb, decDiv, decDiv, hq]
  · rw [ce_ok _ _ (mul_pos hk ha) (mul_pos hk hb), ce_ok _ _ ha hb, decDiv, decDiv, hq]
  · rw [rcr_ok _ _ (mul_pos hk hb), rcr_ok _ _ hb, decDiv, decDiv, hq]

/-- Witness for C10 with scale factor 2. -/
theorem ratio_scale_invariance_witness :
    (0 < (4 : ℚ) → reserve_replacement_ratio (2 * 3) (2 * 4) = reserve_replacement_ratio 3 4) ∧
    (0 < (3 : ℚ) → 0 < (4 : ℚ) → reserve_life_index (2 * 3) (2 * 4) = reserve_life_index 3 4) ∧
    (0 < (3 : ℚ) → 0 < (4 : ℚ) → reserves_per_share (2 * 3) (2 * 4) = reserves_per_share 3 4) ∧
    (0 < (4 : ℚ) → lifting_cost (2 * 3) (2 * 4) = lifting_cost 3 4) ∧
    (0 < (4 : ℚ) → breakeven_price (2 * 3) (2 * 4) = breakeven_price 3 4) ∧
    (0 < (3 : ℚ) → 0 < (4 : ℚ) → capital_efficiency (2 * 3) (2 * 4) = capital_efficiency 3 4) ∧
    (0 < (4 : ℚ) → recycle_ratio (2 * 3) (2 * 4) = recycle_ratio 3 4) :=
  ratio_scale_invariance 2 3 4 (by norm_num)

lemma decFix_one_third :
    decFix (1 / 3) = (3333333333333333333333333333 : ℚ) / 10 ^ 28 := by
  have h := decFix_eval (1 / 3) (-1) (by rw [abs_of_pos (by norm_num)]; norm_num)
    (by rw [abs_of_pos (by norm_num)]; norm_num)
  rw [h]
  have hr : rndHalfEven ((1 / 3 : ℚ) * (10 : ℚ) ^ (27 - (-1 : ℤ))) =
      3333333333333333333333333333 := by
    apply rndHalfEven_of_lt <;> norm_num
  rw [hr]
  norm_num

lemma decFix_four_sevenths :
    decFix (4 / 7) = (5714285714285714285714285714 : ℚ) / 10 ^ 28 := by
  have h := decFix_eval (4 / 7) (-1) (by rw [abs_of_pos (by norm_num)]; norm_num)
    (by rw [abs_of_pos (by norm_num)]; norm_num)
  rw [h]
  have hr : rndHalfEven ((4 / 7 : ℚ) * (10 : ℚ) ^ (27 - (-1 : ℤ))) =
      5714285714285714285714285714 := by
    apply rndHalfEven_of_lt <;> norm_num
  rw [hr]
  norm_num

lemma decFix_pow29_sub_one :
    decFix ((10 : ℚ) ^ (29 : ℕ) - 1) = (10 : ℚ) ^ (29 : ℕ) := by
  have h := decFix_eval ((10 : ℚ) ^ (29 : ℕ) - 1) 28
    (by rw [abs_of_pos (by norm_num)]; norm_num)
    (by rw [abs_of_pos (by norm_num)]; norm_num)
  rw [h]
  have hr : rndHalfEven (((10 : ℚ) ^ (29 : ℕ) - 1) * (10 : ℚ) ^ (27 - 28 : ℤ)) =
      9999999999999999999999999999 + 1 := by
    apply rndHalfEven_of_gt <;> norm_num
  rw [hr]
  norm_num

lemma decFix_pow29 : decFix ((10 : ℚ) ^ (29 : ℕ)) = (10 : ℚ) ^ (29 : ℕ) :=
  decFix_eq_self ⟨1, 29, by norm_num, by norm_num⟩

/-- Counterexample to C2: at exploration_costs = 1, development_costs = 0 and
reserves_added = 3 the code returns the 28-significant-digit rounding
0.3333333333333333333333333333 of the quotient, not the exact value
(1 + 0) / 3 = 1/3 that the claim asserts for all unconstrained costs. -/
theorem finding_development_cost_rounds_one_third :
    finding_development_cost 1 0 3 ≠ Except.ok (((1 : ℚ) + 0) / 3) := by
  rw [fdc_ok 1 0 3 (by norm_num), decAdd,
    show ((1 : ℚ) + 0) = ((1 : ℤ) : ℚ) by norm_num,
    decFix_int _ 1 rfl (by norm_num), decDiv,
    show (((1 : ℤ) : ℚ) / 3) = 1 / 3 by norm_num, decFix_one_third]
  intro h
  have h2 := Except.ok.inj h
  norm_num at h2

/-- Counterexample to C3: at reserves_added = 1, production = 3 the code
returns the 28-significant-digit rounding 0.3333333333333333333333333333 of
the quotient, not the exact quotient 1/3 — there is a rounding error. -/
theorem reserve_replacement_ratio_rounds_one_third :
    reserve_replacement_ratio 1 3 ≠ Except.ok ((1 : ℚ) / 3) := by
  rw [rrr_ok 1 3 (by norm_num), decDiv, decFix_one_third]
  intro h
  have h2 := Except.ok.inj h
  norm_num at h2

/-- C3 amended: for strictly positive production, `reserve_replacement_ratio`
returns the exact quotient `reserves_added / production` rounded to 28
significant digits half-to-even (the decimal context of the source); the
result equals the exact quotient precisely when that quotient is representable
in at most 28 significant digits. -/
theorem reserve_replacement_ratio_rounded_quotient (reserves_added production : ℚ)
    (h : 0 < production) :
    reserve_replacement_ratio reserves_added production =
      Except.ok (decFix (reserves_added / production)) ∧
    (repr28 (reserves_added / production) →
      reserve_replacement_ratio reserves_added production =
        Except.ok (reserves_added / production)) := by
  refine ⟨rrr_ok _ _ h, fun hr => ?_⟩
  rw [rrr_ok _ _ h, decDiv, decFix_eq_self hr]

/-- Witness for the amended C3 at reserves_added = 12000000,
production = 10000000 (the docstring example, whose quotient 1.2 is
representable). -/
theorem reserve_replacement_ratio_rounded_quotient_witness :
    reserve_replacement_ratio 12000000 10000000 =
      Except.ok (decFix ((12000000 : ℚ) / 10000000)) ∧
    (repr28 ((12000000 : ℚ) / 10000000) →
      reserve_replacement_ratio 12000000 10000000 =
        Except.ok ((12000000 : ℚ) / 10000000)) :=
  reserve_replacement_ratio_rounded_quotient 12000000 10000000 (by norm_num)

/-- Modelled from the spec: the two-decimal-place rounding convention for
displayed currency amounts (spec sections 8 and 9; the test helper
`assert_decimal_equal` that embodies it is not in the sources at hand). -/
def quantize2 (q : ℚ) : ℚ := (rndHalfEven (q * 100) : ℚ) / 100

/-- Counterexample to C5: `operating_netback_margin 40 70` is not 57.14: the
code performs no two-decimal rounding. -/
theorem operating_netback_margin_not_two_dp :
    operating_netback_margin 40 70 ≠ Except.ok ((5714 : ℚ) / 100) := by
  rw [onm_ok 40 70 (by norm_num), decDiv,
    show ((40 : ℚ) / 70) = 4 / 7 by norm_num, decFix_four_sevenths, decMul,
    show ((5714285714285714285714285714 : ℚ) / 10 ^ 28 * 100) =
      (5714285714285714285714285714 : ℚ) / 10 ^ 26 by ring,
    decFix_eq_self ⟨5714285714285714285714285714, -26, by norm_num, by norm_num⟩]
  intro h
  have h2 := Except.ok.inj h
  norm_num at h2

/-- C5 amended: `operating_netback_margin 40 70` succeeds and returns the
28-significant-digit value 57.14285714285714285714285714 of
`(netback / oil_price) * 100`; rounding that result to two decimal places per
the spec's display convention yields 57.14, but the function itself returns
the unquantized value. -/
theorem operating_netback_margin_value_at_example :
    operating_netback_margin 40 70 =
      Except.ok ((5714285714285714285714285714 : ℚ) / 10 ^ 26) ∧
    quantize2 ((5714285714285714285714285714 : ℚ) / 10 ^ 26) = (5714 : ℚ) / 100 := by
  constructor
  · rw [onm_ok 40 70 (by norm_num), decDiv,
      show ((40 : ℚ) / 70) = 4 / 7 by norm_num, decFix_four_sevenths, decMul,
      show ((5714285714285714285714285714 : ℚ) / 10 ^ 28 * 100) =
        (5714285714285714285714285714 : ℚ) / 10 ^ 26 by ring,
      decFix_eq_self ⟨5714285714285714285714285714, -26, by norm_num, by norm_num⟩]
  · rw [quantize2,
      show ((5714285714285714285714285714 : ℚ) / 10 ^ 26 * 100) =
        (5714285714285714285714285714 : ℚ) / 10 ^ 24 by ring,
      rndHalfEven_of_lt _ 5714 (by norm_num) (by norm_num)]
    norm_num

lemma decSub_pow29_zero : decSub ((10 : ℚ) ^ (29 : ℕ)) 0 = (10 : ℚ) ^ (29 : ℕ) := by
  rw [decSub, sub_zero, decFix_pow29]

lemma netback_pow29_one : netback ((10 : ℚ) ^ (29 : ℕ)) 1 0 0 = (10 : ℚ) ^ (29 : ℕ) := by
  have e1 : decSub ((10 : ℚ) ^ (29 : ℕ)) 1 = (10 : ℚ) ^ (29 : ℕ) := by
    rw [decSub, decFix_pow29_sub_one]
  simp only [netback]
  rw [e1, decSub_pow29_zero, decSub_pow29_zero]

lemma netback_pow29_zero : netback ((10 : ℚ) ^ (29 : ℕ)) 0 0 0 = (10 : ℚ) ^ (29 : ℕ) := by
  simp only [netback]
  rw [decSub_pow29_zero, decSub_pow29_zero, decSub_pow29_zero]

/-- Counterexample to C8: at a 29-significant-digit oil price the subtraction
is rounded, so raising royalties from 0 to 1 leaves the result unchanged
instead of decreasing it by exactly 1: `netback` is not exactly linear. -/
theorem netback_not_linear_at_29_digits :
    netback ((10 : ℚ) ^ (29 : ℕ)) 1 0 0 = netback ((10 : ℚ) ^ (29 : ℕ)) 0 0 0 ∧
    netback ((10 : ℚ) ^ (29 : ℕ)) 1 0 0 ≠ netback ((10 : ℚ) ^ (29 : ℕ)) 0 0 0 - 1 := by
  rw [netback_pow29_one, netback_pow29_zero]
  exact ⟨rfl, by norm_num⟩

lemma netback_exact (p r t oc : ℚ) (h1 : repr28 (p - r)) (h2 : repr28 (p - r - t))
    (h3 : repr28 (p - r - t - oc)) : netback p r t oc = p - r - t - oc := by
  have e1 : decSub p r = p - r := by rw [decSub, decFix_eq_self h1]
  have e2 : decSub (p - r) t = p - r - t := by rw [decSub, decFix_eq_self h2]
  have e3 : decSub (p - r - t) oc = p - r - t - oc := by rw [decSub, decFix_eq_self h3]
  simp only [netback]
  rw [e1, e2, e3]

/-- C8 amended: `netback` is exactly linear in each argument as long as every
intermediate difference of the base call and of the shifted call is
representable in 28 significant digits (always the case for ordinary price
data; violated only when a difference needs 29 or more digits, where the
context rounding absorbs the shift). -/
theorem netback_linear_on_representable (p r t oc d : ℚ)
    (h1 : repr28 (p - r)) (h2 : repr28 (p - r - t)) (h3 : repr28 (p - r - t - oc))
    (h4 : repr28 (p + d - r)) (h5 : repr28 (p + d - r - t))
    (h6 : repr28 (p + d - r - t - oc))
    (h7 : repr28 (p - (r + d))) (h8 : repr28 (p - (r + d) - t))
    (h9 : repr28 (p - (r + d) - t - oc))
    (h10 : repr28 (p - r - (t + d))) (h11 : repr28 (p - r - (t + d) - oc))
    (h12 : repr28 (p - r - t - (oc + d))) :
    netback (p + d) r t oc = netback p r t oc + d ∧
    netback p (r + d) t oc = netback p r t oc - d ∧
    netback p r (t + d) oc = netback p r t oc - d ∧
    netback p r t (oc + d) = netback p r t oc - d := by
  have hbase := netback_exact p r t oc h1 h2 h3
  refine ⟨?_, ?_, ?_, ?_⟩
  · rw [netback_exact _ _ _ _ h4 h5 h6, hbase]
    ring
  · rw [netback_exact _ _ _ _ h7 h8 h9, hbase]
    ring
  · rw [netback_exact _ _ _ _ h1 h10 h11, hbase]
    ring
  · rw [netback_exact _ _ _ _ h1 h2 h12, hbase]
    ring

/-- Witness for the amended C8 at the spec's example prices with a shift of 1. -/
theorem netback_linear_on_representable_witness :
    netback (70 + 1) 10 5 15 = netback 70 10 5 15 + 1 ∧
    netback 70 (10 + 1) 5 15 = netback 70 10 5 15 - 1 ∧
    netback 70 10 (5 + 1) 15 = netback 70 10 5 15 - 1 ∧
    netback 70 10 5 (15 + 1) = netback 70 10 5 15 - 1 :=
  netback_linear_on_representable 70 10 5 15 1
    (repr28_of_int _ 60 (by norm_num) (by norm_num))
    (repr28_of_int _ 55 (by norm_num) (by norm_num))
    (repr28_of_int _ 40 (by norm_num) (by norm_num))
    (repr28_of_int _ 61 (by norm_num) (by norm_num))
    (repr28_of_int _ 56 (by norm_num) (by norm_num))
    (repr28_of_int _ 41 (by norm_num) (by norm_num))
    (repr28_of_int _ 59 (by norm_num) (by norm_num))
    (repr28_of_int _ 54 (by norm_num) (by norm_num))
    (repr28_of_int _ 39 (by norm_num) (by norm_num))
    (repr28_of_int _ 54 (by norm_num) (by norm_num))
    (repr28_of_int _ 39 (by norm_num) (by norm_num))
    (repr28_of_int _ 39 (by norm_num) (by norm_num))
